import Mathlib

/-!
Verification of the mergin-media-sync daemon against its specification.

The development shallowly embeds the two source modules:

* `config.py` : the `Config` structure mirrors the settings object fields
  that `validate_config` reads, and `validate_config` is translated check
  by check.  Python truthiness of a string is `truthy` (nonempty), and a
  possibly missing list-valued setting is an `Option (List _)` whose
  truthiness is `truthyList`.  A reference rule is observed by
  `validate_config` only through `hasattr` on four attributes, so it is
  embedded as four presence flags.

* `media_sync_daemon.py` : the collaborator modules (`media_sync`,
  `drivers`) are not part of the sources, so their calls are embedded as
  outcome parameters drawn from the error kinds the daemon imports and
  catches (`MediaSyncError` from pull, push, download and client creation,
  `DriverError` from driver construction).  `run_sync_cycle`,
  the startup part of `main` (`mainStartup`) and the loop body
  (`loopIteration`) return the client handle together with the list of log
  events and collaborator calls they perform, in order.  The endless
  `while True` loop is the trace `procTrace` over a stream of per-iteration
  environments.
-/

/-! ## Config model (src/config.py) -/

/-- The `config.mergin` settings read by `validate_config`. -/
structure MerginSettings where
  username : String
  password : String
  project_name : String
deriving DecidableEq, Repr

/-- The `config.local` settings read by `validate_config`. -/
structure LocalSettings where
  dest : String
deriving DecidableEq, Repr

/-- The `config.minio` settings read by `validate_config`. -/
structure MinioSettings where
  endpoint : String
  access_key : String
  secret_key : String
  bucket : String
deriving DecidableEq, Repr

/-- A reference rule as observed by `validate_config`: it only checks with
`hasattr` that the four attributes `file`, `table`, `local_path_column`
and `driver_path_column` are present, so each is a presence flag. -/
structure Reference where
  has_file : Bool
  has_table : Bool
  has_local_path_column : Bool
  has_driver_path_column : Bool
deriving DecidableEq, Repr

/-- The fields of the settings object that `validate_config` reads.
A list-valued setting that may be missing or null in the YAML file is an
`Option (List _)` (`none` is falsy, like Python `None`); `references_on`
may be absent (`none`), `False` (`some false`) or `True` (`some true`). -/
structure Config where
  mergin : MerginSettings
  driver : String
  operation_mode : String
  «local» : LocalSettings
  minio : MinioSettings
  allowed_extensions : Option (List String)
  references_on : Option Bool
  references : Option (List Reference)
deriving DecidableEq, Repr

/-- The `ConfigError` exception, carrying its message. -/
inductive ConfigError where
  | mk (msg : String)
deriving DecidableEq, Repr

/-- Python truthiness of a string: nonempty. -/
def truthy (s : String) : Bool := s != ""

/-- Python truthiness of a possibly missing list setting:
`None` and `[]` are falsy. -/
def truthyList {α : Type} (l : Option (List α)) : Bool :=
  match l with
  | none => false
  | some xs => !xs.isEmpty

/-- The body of the `for ref in config.references` loop:
`all(hasattr(ref, attr) for attr in [...])`. -/
def hasAllRefAttrs (r : Reference) : Bool :=
  r.has_file && r.has_table && r.has_local_path_column && r.has_driver_path_column

/-- `validate_config` from `src/config.py`, check by check in source
order; raising `ConfigError` is returning `Except.error`.  The Python
loop over references raises on the first rule missing an attribute, which
is observationally the same error as the `List.all` test here. -/
def validate_config (config : Config) : Except ConfigError Unit :=
  if !(truthy config.mergin.username && truthy config.mergin.password
        && truthy config.mergin.project_name) then
    .error (.mk "Config error: Incorrect mergin settings")
  else if !(config.driver == "local" || config.driver == "minio") then
    .error (.mk "Config error: Unsupported driver")
  else if !(config.operation_mode == "move" || config.operation_mode == "copy") then
    .error (.mk "Config error: Unsupported operation mode")
  else if config.driver == "local" && !(truthy config.«local».dest) then
    .error (.mk "Config error: Incorrect Local driver settings")
  else if config.driver == "minio"
      && !(truthy config.minio.endpoint && truthy config.minio.access_key
            && truthy config.minio.secret_key && truthy config.minio.bucket) then
    .error (.mk "Config error: Incorrect MinIO driver settings")
  else if !(truthyList config.allowed_extensions) then
    .error (.mk "Config error: Allowed extensions can not be empty")
  else if config.references_on == some true then
    if !(truthyList config.references) then
      .error (.mk "Config error: References list can not be empty")
    else if !((config.references.getD []).all hasAllRefAttrs) then
      .error (.mk "Config error: Incorrect media reference settings")
    else .ok ()
  else .ok ()

/-- The conjunction of every check `validate_config` performs, written as
one boolean predicate over the same fields, for stating that a config
passing all checks validates successfully. -/
def configChecksPass (c : Config) : Bool :=
  (truthy c.mergin.username && truthy c.mergin.password && truthy c.mergin.project_name)
  && (c.driver == "local" || c.driver == "minio")
  && (c.operation_mode == "move" || c.operation_mode == "copy")
  && (!(c.driver == "local") || truthy c.«local».dest)
  && (!(c.driver == "minio")
      || (truthy c.minio.endpoint && truthy c.minio.access_key
            && truthy c.minio.secret_key && truthy c.minio.bucket))
  && truthyList c.allowed_extensions
  && (!(c.references_on == some true)
      || (truthyList c.references && (c.references.getD []).all hasAllRefAttrs))

/-! ## Daemon model (src/media_sync_daemon.py) -/

/-- Log severity of the `logging` calls the daemon makes. -/
inductive LogLevel where
  | info
  | warning
  | error
deriving DecidableEq, Repr

/-- The Mergin client handle; the daemon reads only
`mc._auth_session["expire"]`, modelled as a timestamp in seconds since the
epoch.  `none` embeds a handle on which that read raises (missing session
or missing key), which the loop catches with `except Exception`. -/
structure MerginClient where
  auth_session_expire : Option Int
deriving DecidableEq, Repr

/-- Calls the daemon makes into its collaborator modules, in order. -/
inductive Call where
  | create_driver
  | create_mergin_client
  | mc_download
  | mc_pull
  | media_sync_push
deriving DecidableEq, Repr

/-- The log lines the daemon emits, one constructor per `logger` call site,
carrying the dynamic parts of the message. -/
inductive LogEvent where
  | starting
  | configurationError (msg : String)
  | driverError (msg : String)
  | loggingIn
  | projectDirMissing
  | initialSyncError (msg : String)
  | enteringLoop
  | heartbeat (utcTime : Int)
  | pulling
  | syncComplete
  | mediaSyncError (msg : String)
  | refreshingToken
  | tokenCheckWarning (msg : String)
  | sleeping (seconds : Int)
deriving DecidableEq, Repr

/-- Severity of each log line, matching the `logger.info` / `.warning` /
`.error` call used in the source. -/
def LogEvent.level : LogEvent → LogLevel
  | .configurationError _ => .error
  | .driverError _ => .error
  | .initialSyncError _ => .error
  | .mediaSyncError _ => .error
  | .tokenCheckWarning _ => .warning
  | _ => .info

/-- Outcome of one `mc_pull` / `media_sync_push` pair inside
`run_sync_cycle`.  Modelled from the spec: the collaborator module raises
only `MediaSyncError` across the cycle boundary (driver failures are
handled per file inside the push, per section 4.5 of the spec), so the
possible outcomes are success, a pull failure, or a push failure, each
carrying the exception message. -/
inductive CycleOutcome where
  | ok
  | pullError (msg : String)
  | pushError (msg : String)
deriving DecidableEq, Repr

/-- `run_sync_cycle(mc, driver, logger)`: logs the pull banner, calls
`mc_pull` then `media_sync_push`, logs the success line, and catches
`MediaSyncError` into one error line.  Returns the log lines and
collaborator calls it performs. -/
def run_sync_cycle (outcome : CycleOutcome) : List LogEvent × List Call :=
  match outcome with
  | .ok => ([.pulling, .syncComplete], [.mc_pull, .media_sync_push])
  | .pullError m => ([.pulling, .mediaSyncError m], [.mc_pull])
  | .pushError m => ([.pulling, .mediaSyncError m], [.mc_pull, .media_sync_push])

/-- Outcome of a `create_mergin_client()` call: a fresh handle, or a
raised exception with its message. -/
inductive LoginResult where
  | ok (mc : MerginClient)
  | raises (msg : String)
deriving DecidableEq, Repr

/-- Per-iteration environment of the sync loop: the wall clock at the
heartbeat line and at the expiry check, the cycle outcome, and the outcome
`create_mergin_client()` would have if called this iteration. -/
structure IterEnv where
  hbTime : Int
  cycle : CycleOutcome
  now : Int
  loginResult : LoginResult
deriving DecidableEq, Repr

/-- The token-expiry block of the loop body:
reads `mc._auth_session["expire"]`, compares `delta.total_seconds() < 3600`,
logs and re-logins when near expiry; any exception (unreadable session, or
a failing re-login) is caught and logged as a warning, keeping `mc`.
Returns the client bound after the block, the log lines and the calls. -/
def checkTokenExpiry (mc : MerginClient) (now : Int) (login : LoginResult) :
    MerginClient × List LogEvent × List Call :=
  match mc.auth_session_expire with
  | none => (mc, [.tokenCheckWarning "auth session unavailable"], [])
  | some expire =>
    if expire - now < 3600 then
      match login with
      | .ok mc2 => (mc2, [.refreshingToken], [.create_mergin_client])
      | .raises m => (mc, [.refreshingToken, .tokenCheckWarning m], [.create_mergin_client])
    else (mc, [], [])

/-- One iteration of the `while True` loop: heartbeat line,
`run_sync_cycle`, token-expiry block, sleep line.  Returns the client
bound at the end of the iteration, the log lines and the calls, in
order. -/
def loopIteration (mc : MerginClient) (env : IterEnv) (sleep_time : Int) :
    MerginClient × List LogEvent × List Call :=
  let cyc := run_sync_cycle env.cycle
  let tok := checkTokenExpiry mc env.now env.loginResult
  (tok.1,
   LogEvent.heartbeat env.hbTime :: (cyc.1 ++ tok.2.1 ++ [LogEvent.sleeping sleep_time]),
   cyc.2 ++ tok.2.2)

/-- Status of the daemon process once the loop is entered: still running
(with the current handle and the number of completed iterations), exited
with a code, or crashed on an uncaught exception. -/
inductive ProcStatus where
  | running (mc : MerginClient) (iteration : Nat)
  | exited (code : Int)
  | crashed (msg : String)
deriving DecidableEq, Repr

/-- One step of the process: a running process executes one loop
iteration; an exited or crashed process stays put. -/
def procStep (s : ProcStatus) (env : IterEnv) (sleep_time : Int) : ProcStatus :=
  match s with
  | .running mc n => .running (loopIteration mc env sleep_time).1 (n + 1)
  | s => s

/-- The trace of the `while True` loop from initial handle `mc0` over a
stream of per-iteration environments. -/
def procTrace (mc0 : MerginClient) (envs : Nat → IterEnv) (sleep_time : Int) :
    Nat → ProcStatus
  | 0 => .running mc0 0
  | n + 1 => procStep (procTrace mc0 envs sleep_time n) (envs n) sleep_time

/-- Outcome of the bootstrap `mc_download` + `media_sync_push` pair run
when the project working directory is missing; each failure is a
`MediaSyncError` with its message. -/
inductive InitSyncOutcome where
  | ok
  | downloadError (msg : String)
  | pushError (msg : String)
deriving DecidableEq, Repr

/-- Outcome of `create_driver(config)`: success or a `DriverError`. -/
inductive DriverResult where
  | ok
  | raises (msg : String)
deriving DecidableEq, Repr

/-- Environment of the startup part of `main`: whether
`update_config_path` raises `IOError`, the loaded config, the outcomes of
driver construction, initial login, the `os.path.exists` test on
`config.project_working_dir`, and the bootstrap download. -/
structure StartupEnv where
  configReadError : Option String
  cfg : Config
  driverResult : DriverResult
  loginResult : LoginResult
  project_working_dir_exists : Bool
  initSync : InitSyncOutcome
deriving DecidableEq, Repr

/-- Result of the startup part of `main`: `sys.exit(code)` before the
loop, or entry into the sync loop with the logged-in client.  Both carry
the log lines and collaborator calls made during startup. -/
inductive MainResult where
  | exit (code : Int) (logs : List LogEvent) (calls : List Call)
  | enterLoop (mc : MerginClient) (logs : List LogEvent) (calls : List Call)
deriving DecidableEq, Repr

/-- Calls made during startup. -/
def MainResult.calls : MainResult → List Call
  | .exit _ _ cs => cs
  | .enterLoop _ _ cs => cs

/-- The startup part of `main` (everything before `while True`), in
source order: config load and validation with `IOError` and `ConfigError`
caught into `sys.exit(1)`; `create_driver` with `DriverError` caught the
same way; then `create_mergin_client` and, only when the working directory
is missing, `mc_download` + `media_sync_push`, with `MediaSyncError`
caught into `sys.exit(1)`. -/
def mainStartup (env : StartupEnv) : MainResult :=
  match env.configReadError with
  | some m => .exit 1 [.starting, .configurationError m] []
  | none =>
    match validate_config env.cfg with
    | .error (.mk m) => .exit 1 [.starting, .configurationError m] []
    | .ok _ =>
      match env.driverResult with
      | .raises m => .exit 1 [.starting, .driverError m] [.create_driver]
      | .ok =>
        match env.loginResult with
        | .raises m =>
          .exit 1 [.starting, .loggingIn, .initialSyncError m]
            [.create_driver, .create_mergin_client]
        | .ok mc =>
          if env.project_working_dir_exists then
            .enterLoop mc [.starting, .loggingIn, .enteringLoop]
              [.create_driver, .create_mergin_client]
          else
            match env.initSync with
            | .downloadError m =>
              .exit 1 [.starting, .loggingIn, .projectDirMissing, .initialSyncError m]
                [.create_driver, .create_mergin_client, .mc_download]
            | .pushError m =>
              .exit 1 [.starting, .loggingIn, .projectDirMissing, .initialSyncError m]
                [.create_driver, .create_mergin_client, .mc_download, .media_sync_push]
            | .ok =>
              .enterLoop mc [.starting, .loggingIn, .projectDirMissing, .enteringLoop]
                [.create_driver, .create_mergin_client, .mc_download, .media_sync_push]

/-- A heartbeat log line. -/
def isHeartbeat : LogEvent → Bool
  | .heartbeat _ => true
  | _ => false

/-- A per-cycle summary line: the success line or the media sync error
line of `run_sync_cycle`. -/
def isSummary : LogEvent → Bool
  | .syncComplete => true
  | .mediaSyncError _ => true
  | _ => false

/-! ## Theorems -/

/-- On every iteration the trace of the loop is still running, with the
iteration counter equal to the step number: the loop body is a total
function and `procStep` maps running to running. -/
theorem procTrace_running (mc0 : MerginClient) (envs : Nat → IterEnv) (st : Int) :
    ∀ n : Nat, ∃ mc, procTrace mc0 envs st n = ProcStatus.running mc n := by
  intro n
  induction n with
  | zero => exact ⟨mc0, rfl⟩
  | succ k ih =>
    obtain ⟨mc, h⟩ := ih
    exact ⟨(loopIteration mc (envs k) st).1, by simp [procTrace, h, procStep]⟩

/-- C1: after the cycle runs, a token refresh (a call to
`create_mergin_client`) is attempted if and only if the session expiry
minus the current time is strictly below 3600 seconds, exactly once per
loop iteration and for every cycle outcome; in particular at 59 minutes a
refresh is attempted and at 61 minutes it is not. -/
theorem token_refresh_iff_under_one_hour :
    (∀ (expire : Int) (env : IterEnv) (st : Int),
        (loopIteration ⟨some expire⟩ env st).2.2.countP (· == Call.create_mergin_client)
          = if expire - env.now < 3600 then 1 else 0)
    ∧ (∀ (c : CycleOutcome) (lr : LoginResult) (hb st : Int),
        (loopIteration ⟨some (59 * 60)⟩ ⟨hb, c, 0, lr⟩ st).2.2.countP
            (· == Call.create_mergin_client) = 1)
    ∧ (∀ (c : CycleOutcome) (lr : LoginResult) (hb st : Int),
        (loopIteration ⟨some (61 * 60)⟩ ⟨hb, c, 0, lr⟩ st).2.2.countP
            (· == Call.create_mergin_client) = 0) := by
  have main : ∀ (expire : Int) (env : IterEnv) (st : Int),
      (loopIteration ⟨some expire⟩ env st).2.2.countP (· == Call.create_mergin_client)
        = if expire - env.now < 3600 then 1 else 0 := by
    intro expire env st
    obtain ⟨hb, c, now, lr⟩ := env
    cases c <;> cases lr <;>
      simp only [loopIteration, run_sync_cycle, checkTokenExpiry] <;>
      by_cases h : expire - now < 3600 <;>
        simp [h, List.countP_append, List.countP_cons]
  refine ⟨main, ?_, ?_⟩
  · intro c lr hb st
    have h := main (59 * 60) ⟨hb, c, 0, lr⟩ st
    rwa [if_pos (by norm_num)] at h
  · intro c lr hb st
    have h := main (61 * 60) ⟨hb, c, 0, lr⟩ st
    rwa [if_neg (by norm_num)] at h

/-- C5: every loop iteration logs exactly one heartbeat line, carrying the
UTC timestamp taken at the top of the iteration, and exactly one cycle
summary line (the success line or the media sync error line). -/
theorem one_heartbeat_and_one_summary_per_iteration :
    ∀ (mc : MerginClient) (env : IterEnv) (st : Int),
      (loopIteration mc env st).2.1.countP isHeartbeat = 1
      ∧ LogEvent.heartbeat env.hbTime ∈ (loopIteration mc env st).2.1
      ∧ (loopIteration mc env st).2.1.countP isSummary = 1 := by
  intro mc env st
  obtain ⟨oe⟩ := mc
  obtain ⟨hb, c, now, lr⟩ := env
  cases oe with
  | none =>
    cases c <;> cases lr <;>
      simp [loopIteration, run_sync_cycle, checkTokenExpiry,
        List.countP_append, List.countP_cons, isHeartbeat, isSummary]
  | some expire =>
    cases c <;> cases lr <;>
      simp only [loopIteration, run_sync_cycle, checkTokenExpiry] <;>
      by_cases h : expire - now < 3600 <;>
        simp [h, List.countP_append, List.countP_cons, isHeartbeat, isSummary]

/-- C2: the process trace never reaches a crashed state for any stream of
cycle outcomes, and an error raised by pull or push is caught and turned
into the logged media sync error line. -/
theorem cycle_errors_never_crash_daemon :
    ∀ (mc0 : MerginClient) (envs : Nat → IterEnv) (st : Int) (n : Nat) (m : String),
      procTrace mc0 envs st n ≠ ProcStatus.crashed m
      ∧ LogEvent.mediaSyncError m ∈ (run_sync_cycle (CycleOutcome.pullError m)).1
      ∧ LogEvent.mediaSyncError m ∈ (run_sync_cycle (CycleOutcome.pushError m)).1 := by
  intro mc0 envs st n m
  refine ⟨?_, by simp [run_sync_cycle], by simp [run_sync_cycle]⟩
  intro h
  obtain ⟨mc, hr⟩ := procTrace_running mc0 envs st n
  rw [hr] at h
  exact ProcStatus.noConfusion h

/-- C8: the loop never terminates of its own accord: for every step count
the trace has not exited with any code (in particular not with code 0) and
is still running, about to perform the next iteration. -/
theorem loop_never_exits_on_its_own :
    ∀ (mc0 : MerginClient) (envs : Nat → IterEnv) (st : Int) (n : Nat),
      (∀ code : Int, procTrace mc0 envs st n ≠ ProcStatus.exited code)
      ∧ ∃ mc, procTrace mc0 envs st n = ProcStatus.running mc n := by
  intro mc0 envs st n
  obtain ⟨mc, hr⟩ := procTrace_running mc0 envs st n
  refine ⟨?_, ⟨mc, hr⟩⟩
  intro code h
  rw [hr] at h
  exact ProcStatus.noConfusion h

/-- C4: when the expiry read raises or the refresh login raises, the
iteration keeps the old client handle, logs a token check warning, the
token block logs nothing at error severity, the iteration still ends with
the sleep line, and the process steps on to the next iteration with the
old handle. -/
theorem token_refresh_failure_nonfatal :
    ∀ (mc : MerginClient) (env : IterEnv) (st : Int),
      (mc.auth_session_expire = none
        ∨ ∃ e, mc.auth_session_expire = some e ∧ e - env.now < 3600
            ∧ ∃ m, env.loginResult = LoginResult.raises m)
      → (loopIteration mc env st).1 = mc
        ∧ (∃ m, LogEvent.tokenCheckWarning m ∈ (loopIteration mc env st).2.1)
        ∧ (∀ e ∈ (checkTokenExpiry mc env.now env.loginResult).2.1,
            LogEvent.level e ≠ LogLevel.error)
        ∧ (loopIteration mc env st).2.1.getLast? = some (LogEvent.sleeping st)
        ∧ (∀ n : Nat,
            procStep (ProcStatus.running mc n) env st = ProcStatus.running mc (n + 1)) := by
  intro mc env st h
  obtain ⟨oe⟩ := mc
  obtain ⟨hb, c, now, lr⟩ := env
  have key : (loopIteration ⟨oe⟩ ⟨hb, c, now, lr⟩ st).1 = ⟨oe⟩
      ∧ (∃ m, LogEvent.tokenCheckWarning m ∈ (loopIteration ⟨oe⟩ ⟨hb, c, now, lr⟩ st).2.1)
      ∧ (∀ e ∈ (checkTokenExpiry ⟨oe⟩ now lr).2.1, LogEvent.level e ≠ LogLevel.error)
      ∧ (loopIteration ⟨oe⟩ ⟨hb, c, now, lr⟩ st).2.1.getLast?
          = some (LogEvent.sleeping st) := by
    rcases h with h | ⟨e, he, hlt, m, hm⟩
    · simp only [MerginClient.mk.injEq] at h
      subst h
      cases c <;> cases lr <;>
        simp [loopIteration, run_sync_cycle, checkTokenExpiry, LogEvent.level,
          List.getLast?]
    · simp only [MerginClient.mk.injEq] at he
      subst he
      subst hm
      cases c <;>
        simp [loopIteration, run_sync_cycle, checkTokenExpiry, hlt, LogEvent.level,
          List.getLast?]
  refine ⟨key.1, key.2.1, key.2.2.1, key.2.2.2, ?_⟩
  intro n
  simp [procStep, key.1]

/-- A concrete config that passes every check of `validate_config`. -/
def goodCfg : Config :=
  ⟨⟨"alice", "secret", "proj"⟩, "local", "copy", ⟨"/mnt/media"⟩,
    ⟨"", "", "", ""⟩, some ["jpg"], none, none⟩

/-- A concrete client handle whose session expiry read raises. -/
def brokenSessionClient : MerginClient := ⟨none⟩

/-- A concrete iteration environment whose re-login raises. -/
def failingLoginEnv : IterEnv := ⟨0, CycleOutcome.ok, 0, LoginResult.raises "network down"⟩

theorem token_refresh_failure_nonfatal_witness :
    brokenSessionClient.auth_session_expire = none
    ∧ ((loopIteration brokenSessionClient failingLoginEnv 5).1 = brokenSessionClient
        ∧ (∃ m, LogEvent.tokenCheckWarning m
            ∈ (loopIteration brokenSessionClient failingLoginEnv 5).2.1)
        ∧ (∀ e ∈ (checkTokenExpiry brokenSessionClient failingLoginEnv.now
              failingLoginEnv.loginResult).2.1, LogEvent.level e ≠ LogLevel.error)
        ∧ (loopIteration brokenSessionClient failingLoginEnv 5).2.1.getLast?
            = some (LogEvent.sleeping 5)
        ∧ (∀ n : Nat, procStep (ProcStatus.running brokenSessionClient n) failingLoginEnv 5
            = ProcStatus.running brokenSessionClient (n + 1))) :=
  ⟨rfl, token_refresh_failure_nonfatal brokenSessionClient failingLoginEnv 5 (Or.inl rfl)⟩

/-- C3: any fatal startup condition (config read or validation error,
driver construction failure, failed initial login, or failed bootstrap
download or push) makes `main` exit with code 1 before entering the sync
loop. -/
theorem fatal_startup_exits_code_one :
    ∀ env : StartupEnv,
      (env.configReadError ≠ none
        ∨ validate_config env.cfg ≠ Except.ok ()
        ∨ (∃ m, env.driverResult = DriverResult.raises m)
        ∨ (∃ m, env.loginResult = LoginResult.raises m)
        ∨ (env.project_working_dir_exists = false ∧ env.initSync ≠ InitSyncOutcome.ok))
      → (∃ logs calls, mainStartup env = MainResult.exit 1 logs calls)
        ∧ ∀ mc logs calls, mainStartup env ≠ MainResult.enterLoop mc logs calls := by
  intro env h
  obtain ⟨cre, cfg, dr, lr, dex, ini⟩ := env
  have key : ∃ logs calls,
      mainStartup ⟨cre, cfg, dr, lr, dex, ini⟩ = MainResult.exit 1 logs calls := by
    cases cre with
    | some m => exact ⟨_, _, rfl⟩
    | none =>
      cases hv : validate_config cfg with
      | error e =>
        obtain ⟨m⟩ := e
        exact ⟨[LogEvent.starting, LogEvent.configurationError m], [],
          by simp [mainStartup, hv]⟩
      | ok u =>
        cases u
        cases dr with
        | raises m =>
          exact ⟨[LogEvent.starting, LogEvent.driverError m], [Call.create_driver],
            by simp [mainStartup, hv]⟩
        | ok =>
          cases lr with
          | raises m =>
            exact ⟨[LogEvent.starting, LogEvent.loggingIn, LogEvent.initialSyncError m],
              [Call.create_driver, Call.create_mergin_client], by simp [mainStartup, hv]⟩
          | ok mc =>
            cases dex with
            | true =>
              exfalso
              rcases h with h | h | ⟨m, hm⟩ | ⟨m, hm⟩ | ⟨hd, _⟩
              · exact h rfl
              · exact h hv
              · exact DriverResult.noConfusion hm
              · exact LoginResult.noConfusion hm
              · exact Bool.noConfusion hd
            | false =>
              cases ini with
              | ok =>
                exfalso
                rcases h with h | h | ⟨m, hm⟩ | ⟨m, hm⟩ | ⟨_, hi⟩
                · exact h rfl
                · exact h hv
                · exact DriverResult.noConfusion hm
                · exact LoginResult.noConfusion hm
                · exact hi rfl
              | downloadError m =>
                exact ⟨[LogEvent.starting, LogEvent.loggingIn, LogEvent.projectDirMissing,
                    LogEvent.initialSyncError m],
                  [Call.create_driver, Call.create_mergin_client, Call.mc_download],
                  by simp [mainStartup, hv]⟩
              | pushError m =>
                exact ⟨[LogEvent.starting, LogEvent.loggingIn, LogEvent.projectDirMissing,
                    LogEvent.initialSyncError m],
                  [Call.create_driver, Call.create_mergin_client, Call.mc_download,
                    Call.media_sync_push],
                  by simp [mainStartup, hv]⟩
  obtain ⟨logs, calls, he⟩ := key
  refine ⟨⟨logs, calls, he⟩, ?_⟩
  intro mc logs2 calls2 hne
  rw [he] at hne
  exact MainResult.noConfusion hne

/-- A concrete startup environment whose config file read raises. -/
def badConfigReadEnv : StartupEnv :=
  ⟨some "no such file", goodCfg, DriverResult.ok, LoginResult.ok ⟨some 7200⟩, true,
    InitSyncOutcome.ok⟩

theorem fatal_startup_exits_code_one_witness :
    badConfigReadEnv.configReadError ≠ none
    ∧ ((∃ logs calls, mainStartup badConfigReadEnv = MainResult.exit 1 logs calls)
        ∧ ∀ mc logs calls,
            mainStartup badConfigReadEnv ≠ MainResult.enterLoop mc logs calls) :=
  ⟨by decide, fatal_startup_exits_code_one badConfigReadEnv (Or.inl (by decide))⟩

/-- C6: the bootstrap `mc_download` is performed at most once by startup,
never when the project working directory exists, in which case a
successful startup enters the loop directly; and no loop iteration ever
performs it. -/
theorem bootstrap_download_once_and_only_when_dir_missing :
    (∀ env : StartupEnv,
        (mainStartup env).calls.countP (· == Call.mc_download) ≤ 1)
    ∧ (∀ env : StartupEnv, env.project_working_dir_exists = true →
        (mainStartup env).calls.countP (· == Call.mc_download) = 0)
    ∧ (∀ (env : StartupEnv) (mc : MerginClient),
        env.configReadError = none → validate_config env.cfg = Except.ok () →
        env.driverResult = DriverResult.ok → env.loginResult = LoginResult.ok mc →
        env.project_working_dir_exists = true →
        mainStartup env = MainResult.enterLoop mc
          [LogEvent.starting, LogEvent.loggingIn, LogEvent.enteringLoop]
          [Call.create_driver, Call.create_mergin_client])
    ∧ (∀ (mc : MerginClient) (env : IterEnv) (st : Int),
        (loopIteration mc env st).2.2.countP (· == Call.mc_download) = 0) := by
  refine ⟨?_, ?_, ?_, ?_⟩
  · intro env
    obtain ⟨cre, cfg, dr, lr, dex, ini⟩ := env
    cases cre with
    | some m => simp [mainStartup, MainResult.calls]
    | none =>
      cases hv : validate_config cfg with
      | error e =>
        obtain ⟨m⟩ := e
        simp [mainStartup, hv, MainResult.calls]
      | ok u =>
        cases u
        cases dr <;> cases lr <;> cases dex <;> cases ini <;>
          simp [mainStartup, hv, MainResult.calls, List.countP_cons]
  · intro env hdex
    obtain ⟨cre, cfg, dr, lr, dex, ini⟩ := env
    subst hdex
    cases cre with
    | some m => simp [mainStartup, MainResult.calls]
    | none =>
      cases hv : validate_config cfg with
      | error e =>
        obtain ⟨m⟩ := e
        simp [mainStartup, hv, MainResult.calls]
      | ok u =>
        cases u
        cases dr <;> cases lr <;>
          simp [mainStartup, hv, MainResult.calls, List.countP_cons]
  · intro env mc h1 h2 h3 h4 h5
    obtain ⟨cre, cfg, dr, lr, dex, ini⟩ := env
    simp only at h1 h2 h3 h4 h5
    subst h1
    subst h3
    subst h4
    subst h5
    simp [mainStartup, h2]
  · intro mc env st
    obtain ⟨oe⟩ := mc
    obtain ⟨hb, c, now, lr⟩ := env
    cases oe with
    | none =>
      cases c <;> cases lr <;>
        simp [loopIteration, run_sync_cycle, checkTokenExpiry,
          List.countP_append, List.countP_cons]
    | some expire =>
      cases c <;> cases lr <;>
        simp only [loopIteration, run_sync_cycle, checkTokenExpiry] <;>
        by_cases h : expire - now < 3600 <;>
          simp [h, List.countP_append, List.countP_cons]

/-- A concrete startup environment with an existing working directory and
every startup step succeeding. -/
def dirExistsEnv : StartupEnv :=
  ⟨none, goodCfg, DriverResult.ok, LoginResult.ok ⟨some 7200⟩, true, InitSyncOutcome.ok⟩

theorem bootstrap_download_witness :
    validate_config goodCfg = Except.ok ()
    ∧ mainStartup dirExistsEnv = MainResult.enterLoop ⟨some 7200⟩
        [LogEvent.starting, LogEvent.loggingIn, LogEvent.enteringLoop]
        [Call.create_driver, Call.create_mergin_client] :=
  ⟨rfl, bootstrap_download_once_and_only_when_dir_missing.2.2.1 dirExistsEnv ⟨some 7200⟩
    rfl rfl rfl rfl rfl⟩

/-- Validation results compare decidably. -/
instance : DecidableEq (Except ConfigError Unit) := fun a b =>
  match a, b with
  | .ok (), .ok () => isTrue rfl
  | .error e1, .error e2 =>
    if h : e1 = e2 then isTrue (by rw [h])
    else isFalse (fun hh => h (by injection hh))
  | .ok _, .error _ => isFalse (fun hh => Except.noConfusion hh)
  | .error _, .ok _ => isFalse (fun hh => Except.noConfusion hh)

set_option maxRecDepth 8192 in
/-- `validate_config` succeeds exactly when every one of its checks
passes. -/
theorem validate_config_ok_iff (c : Config) :
    validate_config c = Except.ok () ↔ configChecksPass c = true := by
  simp only [validate_config, configChecksPass]
  generalize (truthy c.mergin.username && truthy c.mergin.password
    && truthy c.mergin.project_name) = a1
  generalize (c.driver == "local") = d1
  generalize (c.driver == "minio") = d2
  generalize (c.operation_mode == "move" || c.operation_mode == "copy") = om
  generalize (truthy c.«local».dest) = ld
  generalize (truthy c.minio.endpoint && truthy c.minio.access_key
    && truthy c.minio.secret_key && truthy c.minio.bucket) = mi
  generalize (truthyList c.allowed_extensions) = ae
  generalize (c.references_on == some true) = ro
  generalize (truthyList c.references) = r1
  generalize ((c.references.getD []).all hasAllRefAttrs) = r2
  revert a1 d1 d2 om ld mi ae ro r1 r2
  decide

/-- C9: `validate_config` rejects empty mergin settings, an empty local
destination under the local driver, and any empty MinIO setting under the
minio driver; and it succeeds exactly on configs passing all its checks. -/
theorem validate_config_field_requirements :
    (∀ c : Config,
        (truthy c.mergin.username = false ∨ truthy c.mergin.password = false
          ∨ truthy c.mergin.project_name = false) →
        validate_config c
          = Except.error (ConfigError.mk "Config error: Incorrect mergin settings"))
    ∧ (∀ c : Config, c.driver = "local" → truthy c.«local».dest = false →
        validate_config c ≠ Except.ok ())
    ∧ (∀ c : Config, c.driver = "minio" →
        (truthy c.minio.endpoint = false ∨ truthy c.minio.access_key = false
          ∨ truthy c.minio.secret_key = false ∨ truthy c.minio.bucket = false) →
        validate_config c ≠ Except.ok ())
    ∧ (∀ c : Config, validate_config c = Except.ok () ↔ configChecksPass c = true) := by
  refine ⟨?_, ?_, ?_, validate_config_ok_iff⟩
  · intro c h
    have hc : (truthy c.mergin.username && truthy c.mergin.password
        && truthy c.mergin.project_name) = false := by
      rcases h with h | h | h <;> simp [h]
    simp [validate_config, hc]
  · intro c h1 h2 hok
    have hp := (validate_config_ok_iff c).mp hok
    simp [configChecksPass, h1, h2] at hp
  · intro c h1 h2 hok
    have hp := (validate_config_ok_iff c).mp hok
    rcases h2 with h | h | h | h <;> simp [configChecksPass, h1, h] at hp

/-- A concrete config with an empty mergin username. -/
def badMerginCfg : Config := {goodCfg with mergin := ⟨"", "secret", "proj"⟩}

theorem validate_config_field_requirements_witness :
    truthy badMerginCfg.mergin.username = false
    ∧ validate_config badMerginCfg
        = Except.error (ConfigError.mk "Config error: Incorrect mergin settings")
    ∧ validate_config goodCfg = Except.ok () :=
  ⟨rfl, validate_config_field_requirements.1 badMerginCfg (Or.inl rfl),
    (validate_config_field_requirements.2.2.2 goodCfg).mpr rfl⟩

/-- C7: a missing or empty extension allow-list makes `validate_config`
raise, and whenever startup reaches the sync loop the validated config
carries a nonempty allow-list. -/
theorem empty_allow_list_rejected_at_config_time :
    (∀ c : Config,
        (c.allowed_extensions = none ∨ c.allowed_extensions = some []) →
        validate_config c ≠ Except.ok ())
    ∧ (∀ (env : StartupEnv) (mc : MerginClient) (logs : List LogEvent)
          (calls : List Call),
        mainStartup env = MainResult.enterLoop mc logs calls →
        ∃ exts, env.cfg.allowed_extensions = some exts ∧ exts ≠ []) := by
  constructor
  · intro c hc hok
    have hp := (validate_config_ok_iff c).mp hok
    have ht : truthyList c.allowed_extensions = false := by
      rcases hc with h | h <;> simp [h, truthyList]
    simp [configChecksPass, ht] at hp
  · intro env mc logs calls h
    obtain ⟨cre, cfg, dr, lr, dex, ini⟩ := env
    cases cre with
    | some m => simp [mainStartup] at h
    | none =>
      cases hv : validate_config cfg with
      | error e =>
        obtain ⟨m⟩ := e
        rw [show mainStartup ⟨none, cfg, dr, lr, dex, ini⟩
            = MainResult.exit 1 [LogEvent.starting, LogEvent.configurationError m] []
          from by simp [mainStartup, hv]] at h
        exact MainResult.noConfusion h
      | ok u =>
        cases u
        have hp := (validate_config_ok_iff cfg).mp hv
        simp only [configChecksPass, Bool.and_eq_true] at hp
        have ht : truthyList cfg.allowed_extensions = true := hp.1.2
        cases hae : cfg.allowed_extensions with
        | none => rw [hae] at ht; simp [truthyList] at ht
        | some xs =>
          refine ⟨xs, rfl, ?_⟩
          intro hnil
          rw [hae, hnil] at ht
          simp [truthyList] at ht

/-- A concrete config with a missing allow-list. -/
def noExtCfg : Config := {goodCfg with allowed_extensions := none}

theorem empty_allow_list_rejected_witness :
    (noExtCfg.allowed_extensions = none ∨ noExtCfg.allowed_extensions = some [])
    ∧ validate_config noExtCfg ≠ Except.ok () :=
  ⟨Or.inl rfl, empty_allow_list_rejected_at_config_time.1 noExtCfg (Or.inl rfl)⟩

/-- C10: when `references_on` does not compare equal to `True`, the
references list is not inspected at all: validation gives the same result
for every value of the references field, and neither reference-related
`ConfigError` can be raised. -/
theorem references_checked_only_when_flag_true :
    ∀ c : Config, c.references_on ≠ some true →
      (∀ refs : Option (List Reference),
          validate_config {c with references := refs} = validate_config c)
      ∧ validate_config c
          ≠ Except.error (ConfigError.mk "Config error: References list can not be empty")
      ∧ validate_config c
          ≠ Except.error
              (ConfigError.mk "Config error: Incorrect media reference settings") := by
  intro c h
  have hb : (c.references_on == some true) = false := by
    cases hro : c.references_on with
    | none => rfl
    | some b =>
      cases b with
      | false => rfl
      | true => exact absurd hro h
  obtain ⟨mg, dr, om, lo, mi, ae, ro, re⟩ := c
  simp only at hb
  refine ⟨?_, ?_, ?_⟩
  · intro refs
    simp [validate_config, hb]
  · intro heq
    simp only [validate_config] at heq
    simp only [hb, Bool.false_eq_true, if_false] at heq
    repeat' split at heq
    all_goals exact absurd heq (by decide)
  · intro heq
    simp only [validate_config] at heq
    simp only [hb, Bool.false_eq_true, if_false] at heq
    repeat' split at heq
    all_goals exact absurd heq (by decide)

theorem references_checked_only_when_flag_true_witness :
    goodCfg.references_on ≠ some true
    ∧ validate_config {goodCfg with references := some []} = validate_config goodCfg
    ∧ validate_config goodCfg
        ≠ Except.error (ConfigError.mk "Config error: References list can not be empty")
    ∧ validate_config goodCfg
        ≠ Except.error
            (ConfigError.mk "Config error: Incorrect media reference settings") :=
  ⟨by decide, (references_checked_only_when_flag_true goodCfg (by decide)).1 (some []),
    (references_checked_only_when_flag_true goodCfg (by decide)).2.1,
    (references_checked_only_when_flag_true goodCfg (by decide)).2.2⟩
